import Mathlib

/-!
Shallow embedding of the ClaClo-teacher Flask application (src/app.py):
request bodies are association lists of JSON values, the relational store
is a record of lists of rows, and each route handler is a pure function
from its inputs and the store to a response (and possibly an updated
store).  Python dict access data[k] that can raise KeyError is modelled by
returning the Flask 500 error response (the registered errorhandler(500)
body), and dict.get(k) by an Option lookup defaulting to null.  The
handlers of app.py never destructure a JSON value (they only test key
presence and copy values), so request-body values are modelled by the
scalar JSON values; response bodies are JSON objects, arrays of objects,
or the plain text of an aborted request.
-/

namespace ClaClo

/-- Scalar JSON values, as carried in request fields and copied into rows
and responses. -/
inductive Jv where
  | null : Jv
  | i : Int → Jv
  | s : String → Jv
  | b : Bool → Jv
deriving DecidableEq, Repr

/-- A JSON response body: jsonify of a dict, jsonify of a list of dicts,
or the non-JSON text page produced by abort. -/
inductive Body where
  | obj : List (String × Jv) → Body
  | arr : List (List (String × Jv)) → Body
  | text : String → Body
deriving DecidableEq, Repr

/-- An HTTP response: status code and body. -/
structure Response where
  status : Nat
  body : Body
deriving DecidableEq, Repr

/-- A JSON request body, as the handlers consume it (request.json). -/
abbrev ReqBody := List (String × Jv)

/-- Python data.get(k): None (null) when the key is absent. -/
def jget (data : ReqBody) (k : String) : Jv :=
  (data.lookup k).getD Jv.null

/-- Membership test k in data. -/
def hasKey (data : ReqBody) (k : String) : Bool :=
  (data.lookup k).isSome

/-- Werkzeug generate_password_hash produces a salted hash; we model the
digest abstractly as the (salt, password) pair, which is exactly as
injective as the claims need. -/
structure PwHash where
  salt : String
  pw : Jv
deriving DecidableEq, Repr

def generate_password_hash (salt : String) (password : Jv) : PwHash :=
  ⟨salt, password⟩

def check_password_hash (h : PwHash) (password : Jv) : Bool :=
  h.pw == password

/-- users table row. -/
structure User where
  id : Nat
  name : Jv
  email : Jv
  password_hash : PwHash
  type : Jv
deriving DecidableEq, Repr

/-- courses table row. -/
structure Course where
  id : Nat
  title : Jv
  description : Jv
  teacher_id : Nat
deriving DecidableEq, Repr

/-- Naive datetime as produced by datetime.strptime. -/
structure PyDateTime where
  year : Nat
  month : Nat
  day : Nat
  hour : Nat
  minute : Nat
  second : Nat
deriving DecidableEq, Repr

/-- assignments table row. -/
structure Assignment where
  id : Nat
  name : Jv
  due_date : PyDateTime
  course_id : Nat
  description : Jv
deriving DecidableEq, Repr

/-- enrollments table row (enroll_date defaulted, not relevant to any claim). -/
structure Enrollment where
  id : Nat
  course_id : Nat
  student_id : Nat
deriving DecidableEq, Repr

/-- submissions table row (submission_date defaulted, not relevant). -/
structure AssignmentSubmission where
  id : Nat
  student_id : Nat
  assignment_id : Nat
  marks : Jv
  feedback : Jv
deriving DecidableEq, Repr

/-- The relational store. -/
structure DB where
  users : List User
  courses : List Course
  assignments : List Assignment
  enrollments : List Enrollment
  submissions : List AssignmentSubmission
deriving DecidableEq, Repr

/-- SQLite-style autoincrement primary key: one more than the largest id
in the table (1 on an empty table). -/
def freshId (ids : List Nat) : Nat :=
  ids.foldr max 0 + 1

/-- Query .first() followed by mutating the returned row: rewrite the
first row satisfying the filter, leave the rest alone. -/
def updateFirst (p : α → Bool) (f : α → α) : List α → List α
  | [] => []
  | x :: xs => if p x then f x :: xs else x :: updateFirst p f xs

/-- Query .first() followed by db.session.delete on the returned row. -/
def removeFirst (p : α → Bool) : List α → List α
  | [] => []
  | x :: xs => if p x then xs else x :: removeFirst p xs

/-- Body of the registered errorhandler(500). -/
def serverError : Response :=
  ⟨500, Body.obj [("message", Jv.s "Server error")]⟩

/-- Body of the registered errorhandler(404), used by get_or_404. -/
def notFound404 : Response :=
  ⟨404, Body.obj [("message", Jv.s "Resource not found")]⟩

/-- Course.query.filter_by(id=course_id, teacher_id=tid).first(). -/
def findOwnedCourse (db : DB) (course_id tid : Nat) : Option Course :=
  db.courses.find? (fun c => c.id == course_id && c.teacher_id == tid)

/-- POST /register (app.py register): 400 when the body is falsy or any of
name, email, password, type is absent; 409 when a user with that email
exists; otherwise inserts the user with a salted password hash and returns
the new identity with 201.  The salt chosen by generate_password_hash is
an explicit argument. -/
def register (salt : String) (data : ReqBody) (db : DB) : Response × DB :=
  if data.isEmpty ||
      !(hasKey data "name" && hasKey data "email" &&
        hasKey data "password" && hasKey data "type") then
    (⟨400, Body.text "Missing data for registration"⟩, db)
  else
    match data.lookup "name", data.lookup "email",
          data.lookup "password", data.lookup "type" with
    | some nm, some em, some pw, some ty =>
      match db.users.find? (fun u => u.email == em) with
      | some _ => (⟨409, Body.obj [("message", Jv.s "Email already used")]⟩, db)
      | none =>
        let uid := freshId (db.users.map User.id)
        let u : User := ⟨uid, nm, em, generate_password_hash salt pw, ty⟩
        (⟨201, Body.obj [("id", Jv.i uid), ("name", nm), ("email", em), ("type", ty)]⟩,
         { db with users := db.users ++ [u] })
    | _, _, _, _ => (⟨400, Body.text "Missing data for registration"⟩, db)

/-- The access token issued by create_access_token(identity=user.id),
modelled as a tagged rendering of the identity. -/
def create_access_token (identity : Nat) : Jv :=
  Jv.s ("token:" ++ toString identity)

/-- POST /login (app.py login): data has subscript access, so a missing
email key is an uncaught KeyError (500); an unknown email short-circuits
the Python and-expression to 401 before data is subscripted again; a known
email with a missing password key is again a KeyError (500). -/
def login (data : ReqBody) (db : DB) : Response :=
  match data.lookup "email" with
  | none => serverError
  | some em =>
    match db.users.find? (fun u => u.email == em) with
    | none => ⟨401, Body.obj [("message", Jv.s "Invalid credentials")]⟩
    | some u =>
      match data.lookup "password" with
      | none => serverError
      | some pw =>
        if check_password_hash u.password_hash pw then
          ⟨200, Body.obj [("access_token", create_access_token u.id)]⟩
        else
          ⟨401, Body.obj [("message", Jv.s "Invalid credentials")]⟩

/-- One decimal digit. -/
def digit? (c : Char) : Option Nat :=
  if c.isDigit then some (c.toNat - 48) else none

/-- Two decimal digits. -/
def twoDigits (a b : Char) : Option Nat := do
  let x ← digit? a
  let y ← digit? b
  pure (10 * x + y)

/-- datetime.strptime(v, %Y-%m-%dT%H:%M:%SZ), on the canonical zero-padded
form of that format: four year digits, two digits for each other field,
with the constructor range checks of datetime (month 1..12, day 1..31,
hour below 24, minute and second below 60); any other string fails
(ValueError).  Day-of-month versus month-length validation is abstracted
away; no claim depends on it. -/
def strptimeZ (v : String) : Option PyDateTime :=
  match v.toList with
  | [y1, y2, y3, y4, '-', mo1, mo2, '-', d1, d2, 'T',
     h1, h2, ':', mi1, mi2, ':', se1, se2, 'Z'] => do
    let yh ← twoDigits y1 y2
    let yl ← twoDigits y3 y4
    let mo ← twoDigits mo1 mo2
    let d ← twoDigits d1 d2
    let h ← twoDigits h1 h2
    let mi ← twoDigits mi1 mi2
    let se ← twoDigits se1 se2
    if 1 ≤ mo ∧ mo ≤ 12 ∧ 1 ≤ d ∧ d ≤ 31 ∧ h ≤ 23 ∧ mi ≤ 59 ∧ se ≤ 59 then
      pure ⟨100 * yh + yl, mo, d, h, mi, se⟩
    else
      none
  | _ => none

/-- Whether a string starts with a slash, computed on the characters. -/
def startsWithSlash (v : String) : Bool :=
  match v.toList with
  | [] => false
  | c :: _ => c == '/'

/-- Whether a string ends with a slash, computed on the characters. -/
def endsWithSlash (v : String) : Bool :=
  match v.toList.getLast? with
  | none => false
  | some c => c == '/'

/-- os.path.join for the POSIX paths this app builds. -/
def os_path_join (a b : String) : String :=
  if startsWithSlash b then b
  else if a = "" then b
  else if endsWithSlash a then a ++ b
  else a ++ "/" ++ b

/-- app.config UPLOAD_FOLDER, a fixed directory shared by every course. -/
def UPLOAD_FOLDER : String := "/path/to/upload/folder"

/-- The 404 returned by every owner-checked course route: a single
constant response, the same whether the course row is missing or owned by
a different teacher. -/
def courseNotFound : Response :=
  ⟨404, Body.obj [("message", Jv.s "Course not found or unauthorized access")]⟩

/-- POST /courses (app.py create_course): data is subscripted for title,
so a missing title key is an uncaught KeyError (500); otherwise a course
row owned by the token identity is inserted. -/
def create_course (tid : Nat) (data : ReqBody) (db : DB) : Response × DB :=
  match data.lookup "title" with
  | none => (serverError, db)
  | some title =>
    let cid := freshId (db.courses.map Course.id)
    let c : Course := ⟨cid, title, jget data "description", tid⟩
    (⟨201, Body.obj [("id", Jv.i cid), ("title", title)]⟩,
     { db with courses := db.courses ++ [c] })

/-- GET /courses/(course_id) (app.py get_course): get_or_404 on the
primary key, no jwt_required decorator and no teacher filter. -/
def get_course (db : DB) (course_id : Nat) : Response :=
  match db.courses.find? (fun c => c.id == course_id) with
  | none => notFound404
  | some c =>
    ⟨200, Body.obj [("id", Jv.i c.id), ("title", c.title),
                    ("description", c.description)]⟩

/-- The route around get_course: the URL rule carries no jwt_required, so
whatever Authorization token the request does or does not carry is never
consulted. -/
def get_course_route (tok : Option Nat) (db : DB) (course_id : Nat) : Response :=
  get_course db course_id

/-- GET /courses (app.py list_courses): the courses filtered to the token
identity as teacher_id. -/
def list_courses (tid : Nat) (db : DB) : Response :=
  ⟨200, Body.arr ((db.courses.filter (fun c => c.teacher_id == tid)).map
    (fun c => [("id", Jv.i c.id), ("title", c.title),
               ("description", c.description)]))⟩

/-- PUT /courses/(course_id) (app.py update_course): filter_by id and
token identity; absent row gives the constant 404; otherwise title and
description are data.get with the old value as default. -/
def update_course (tid course_id : Nat) (data : ReqBody) (db : DB) : Response × DB :=
  match findOwnedCourse db course_id tid with
  | none => (courseNotFound, db)
  | some c =>
    let c' : Course :=
      { c with title := (data.lookup "title").getD c.title,
               description := (data.lookup "description").getD c.description }
    (⟨200, Body.obj [("id", Jv.i c'.id), ("title", c'.title),
                     ("description", c'.description)]⟩,
     { db with courses := (updateFirst
         (fun r => r.id == course_id && r.teacher_id == tid) (fun _ => c')
         db.courses) })

/-- DELETE /courses/(course_id) (app.py delete_course): same filter and
constant 404; on success the row is deleted. -/
def delete_course (tid course_id : Nat) (db : DB) : Response × DB :=
  match findOwnedCourse db course_id tid with
  | none => (courseNotFound, db)
  | some _ =>
    (⟨200, Body.obj [("message", Jv.s "Course deleted successfully")]⟩,
     { db with courses := (removeFirst
         (fun r => r.id == course_id && r.teacher_id == tid) db.courses) })

/-- The multipart file part of an upload request. -/
structure FilePart where
  filename : String
deriving DecidableEq, Repr

/-- POST /courses/(course_id)/materials (app.py upload_material).  The
sanitize argument abstracts werkzeug secure_filename, which app.py calls
but does not define; every theorem below holds for any such function.
The second component of the result is the path passed to file.save, none
when nothing is written.  The store is never mutated. -/
def upload_material (sanitize : String → String) (tid course_id : Nat)
    (file : Option FilePart) (db : DB) : Response × Option String :=
  match findOwnedCourse db course_id tid with
  | none => (courseNotFound, none)
  | some _ =>
    match file with
    | none => (⟨400, Body.obj [("message", Jv.s "No file part found in the request")]⟩, none)
    | some f =>
      if f.filename = "" then
        (⟨400, Body.obj [("message", Jv.s "No file selected")]⟩, none)
      else
        (⟨201, Body.obj [("message", Jv.s "File uploaded successfully")]⟩,
         some (os_path_join UPLOAD_FOLDER (sanitize f.filename)))

/-- GET /courses/(course_id)/students (app.py list_course_students). -/
def list_course_students (tid course_id : Nat) (db : DB) : Response :=
  match findOwnedCourse db course_id tid with
  | none => courseNotFound
  | some _ =>
    ⟨200, Body.arr ((db.enrollments.filter (fun e => e.course_id == course_id)).map
      (fun e => [("student_id", Jv.i e.student_id)]))⟩

/-- AssignmentSubmission.query.filter_by(assignment_id, student_id).first():
the lookup key of the marking route, with no course component. -/
def findSubmission (db : DB) (assignment_id student_id : Nat) :
    Option AssignmentSubmission :=
  db.submissions.find? (fun s =>
    s.assignment_id == assignment_id && s.student_id == student_id)

/-- PUT .../submissions/(student_id)/mark (app.py mark_submission): owner
check on the course named in the URL, then lookup by (assignment id,
student id) only; marks and feedback are set to data.get of their keys,
null when absent, with no validation. -/
def mark_submission (tid course_id assignment_id student_id : Nat)
    (data : ReqBody) (db : DB) : Response × DB :=
  match findOwnedCourse db course_id tid with
  | none => (courseNotFound, db)
  | some _ =>
    match findSubmission db assignment_id student_id with
    | none => (⟨404, Body.obj [("message", Jv.s "Submission not found")]⟩, db)
    | some _ =>
      (⟨200, Body.obj [("message", Jv.s "Marks and feedback updated successfully")]⟩,
       { db with submissions := (updateFirst
           (fun s => s.assignment_id == assignment_id && s.student_id == student_id)
           (fun s => { s with marks := jget data "marks",
                              feedback := jget data "feedback" })
           db.submissions) })

/-- POST /courses/(course_id)/assignments (app.py
add_assignment_to_course): data is subscripted for due_date first and
name second, so either key missing is an uncaught KeyError (500), a
non-string or ill-formed due_date an uncaught TypeError or ValueError
(500); the course in the URL is never looked up, and the row is inserted
with course_id taken from the URL. -/
def add_assignment_to_course (tid course_id : Nat) (data : ReqBody)
    (db : DB) : Response × DB :=
  match data.lookup "due_date" with
  | none => (serverError, db)
  | some (Jv.s dd) =>
    match strptimeZ dd with
    | none => (serverError, db)
    | some due =>
      match data.lookup "name" with
      | none => (serverError, db)
      | some nm =>
        let aid := freshId (db.assignments.map Assignment.id)
        let a : Assignment := ⟨aid, nm, due, course_id, jget data "description"⟩
        (⟨201, Body.obj [("id", Jv.i aid), ("name", nm)]⟩,
         { db with assignments := db.assignments ++ [a] })
  | some _ => (serverError, db)

/-- POST /courses/(course_id)/enroll (app.py enroll_student): the token
identity is taken as the student id, with no check on the user type, on
the course, or against an existing enrollment. -/
def enroll_student (tid course_id : Nat) (db : DB) : Response × DB :=
  let eid := freshId (db.enrollments.map Enrollment.id)
  (⟨200, Body.obj [("message", Jv.s "Student enrolled successfully")]⟩,
   { db with enrollments := db.enrollments ++ [⟨eid, course_id, tid⟩] })

/-- Modelled from the spec: app.py exposes no route that reads a
submission back, while section 8 of the spec states that marking a
submission returns marks and feedback verbatim on next read.  The read is
modelled as returning the stored marks and feedback of the submission
looked up by (assignment id, student id), the same key the marking route
uses. -/
def read_submission (db : DB) (assignment_id student_id : Nat) :
    Option (Jv × Jv) :=
  (findSubmission db assignment_id student_id).map (fun s => (s.marks, s.feedback))

/-! Helper lemmas about the list-level query combinators. -/

/-- A body with a successful lookup is not the falsy empty dict. -/
theorem lookup_isEmpty_false {k : String} {v : Jv} {data : ReqBody}
    (h : data.lookup k = some v) : data.isEmpty = false := by
  cases data with
  | nil => simp at h
  | cons a l => rfl

/-- Appending a row that satisfies the filter to a table on which the
query was empty makes the query return that row. -/
theorem find?_append_singleton {α : Type} {p : α → Bool} {l : List α} {x : α}
    (h : l.find? p = none) (hx : p x = true) :
    (l ++ [x]).find? p = some x := by
  rw [List.find?_append, h]
  simp [List.find?_cons_of_pos _ hx]

/-- Rewriting the first matching row leaves it the first match, as long as
the rewrite preserves the filter. -/
theorem find?_updateFirst {α : Type} {p : α → Bool} {f : α → α} {l : List α}
    {x : α} (h : l.find? p = some x) (hfx : p (f x) = true) :
    (updateFirst p f l).find? p = some (f x) := by
  induction l with
  | nil => simp at h
  | cons a l ih =>
    cases hpa : p a with
    | true =>
      rw [List.find?_cons_of_pos _ hpa] at h
      injection h with h
      subst h
      simp [updateFirst, hpa, List.find?_cons_of_pos _ hfx]
    | false =>
      have hna : ¬ p a = true := by simp [hpa]
      rw [List.find?_cons_of_neg _ hna] at h
      simp [updateFirst, hpa, List.find?_cons_of_neg _ hna, ih h]

/-! Concrete stores and request bodies reused by the witnesses below. -/

/-- The empty store. -/
def dbEmpty : DB := ⟨[], [], [], [], []⟩

/-- Course 5 owned by teacher 1. -/
def dbOwned : DB := ⟨[], [⟨5, Jv.s "Math 101", Jv.s "Basic Math", 1⟩], [], [], []⟩

/-- Course 5 owned by teacher 2 instead. -/
def dbOther : DB := ⟨[], [⟨5, Jv.s "Math 101", Jv.s "Basic Math", 2⟩], [], [], []⟩

/-- A complete registration body. -/
def regData : ReqBody :=
  [("name", Jv.s "Teacher 1"), ("email", Jv.s "teacher1@test.com"),
   ("password", Jv.s "securepassword"), ("type", Jv.s "teacher")]

/-! Claim theorems. -/

/-- C1: an authenticated PUT or DELETE on /courses/(course_id) succeeds
exactly when a course row with that id exists whose teacher_id equals the
token identity; when no such row exists both routes return the single
constant 404 response courseNotFound and leave the store untouched, so
the response for a course owned by a different teacher and the response
for an absent course are one and the same value. -/
theorem C1_owner_gated_mutation (db : DB) (tid course_id : Nat) (data : ReqBody) :
    ((findOwnedCourse db course_id tid).isSome →
      (update_course tid course_id data db).1.status = 200 ∧
      (delete_course tid course_id db).1.status = 200) ∧
    (findOwnedCourse db course_id tid = none →
      update_course tid course_id data db = (courseNotFound, db) ∧
      delete_course tid course_id db = (courseNotFound, db)) ∧
    (∀ db1 db2 : DB, findOwnedCourse db1 course_id tid = none →
      findOwnedCourse db2 course_id tid = none →
      (update_course tid course_id data db1).1 =
        (update_course tid course_id data db2).1 ∧
      (delete_course tid course_id db1).1 = (delete_course tid course_id db2).1) := by
  refine ⟨?_, ?_, ?_⟩
  · intro h
    obtain ⟨c, hc⟩ := Option.isSome_iff_exists.mp h
    simp [update_course, delete_course, hc]
  · intro h
    simp [update_course, delete_course, h]
  · intro db1 db2 h1 h2
    simp [update_course, delete_course, h1, h2]

/-- Witness for C1: with course 5 owned by teacher 2, teacher 1's PUT and
DELETE produce exactly the responses produced on a store with no course 5
at all, while the owner's PUT succeeds. -/
theorem C1_owner_gated_mutation_witness :
    (update_course 1 5 [] dbOther).1 = (update_course 1 5 [] dbEmpty).1 ∧
    (delete_course 1 5 dbOther).1 = (delete_course 1 5 dbEmpty).1 ∧
    (update_course 1 5 [] dbOwned).1.status = 200 := by
  refine ⟨((C1_owner_gated_mutation dbEmpty 1 5 []).2.2 dbOther dbEmpty rfl rfl).1,
          ((C1_owner_gated_mutation dbEmpty 1 5 []).2.2 dbOther dbEmpty rfl rfl).2,
          ((C1_owner_gated_mutation dbOwned 1 5 []).1 rfl).1⟩

/-- C2: POST /register returns 400 and leaves the store unchanged when
name, email, password, or type is absent; returns 409 when a user with
the given email exists, so in particular the second of two registrations
of the same email gets 409; and otherwise inserts a user carrying the
salted password hash of the submitted password and answers 201 with the
new identity (id, name, email, type). -/
theorem C2_register (salt salt2 : String) (data : ReqBody) (db : DB) :
    ((hasKey data "name" && hasKey data "email" &&
      hasKey data "password" && hasKey data "type") = false →
      (register salt data db).1.status = 400 ∧ (register salt data db).2 = db) ∧
    (∀ nm em pw ty u,
      data.lookup "name" = some nm → data.lookup "email" = some em →
      data.lookup "password" = some pw → data.lookup "type" = some ty →
      db.users.find? (fun v => v.email == em) = some u →
      register salt data db =
        (⟨409, Body.obj [("message", Jv.s "Email already used")]⟩, db)) ∧
    (∀ nm em pw ty,
      data.lookup "name" = some nm → data.lookup "email" = some em →
      data.lookup "password" = some pw → data.lookup "type" = some ty →
      db.users.find? (fun v => v.email == em) = none →
      register salt data db =
        (⟨201, Body.obj [("id", Jv.i (freshId (db.users.map User.id))),
                         ("name", nm), ("email", em), ("type", ty)]⟩,
         { db with users := db.users ++
             [⟨freshId (db.users.map User.id), nm, em,
               generate_password_hash salt pw, ty⟩] }) ∧
      (register salt2 data (register salt data db).2).1 =
        ⟨409, Body.obj [("message", Jv.s "Email already used")]⟩) := by
  refine ⟨?_, ?_, ?_⟩
  · intro h
    simp [register, h]
  · intro nm em pw ty u hn he hp ht hf
    simp [register, hasKey, lookup_isEmpty_false he, hn, he, hp, ht, hf]
  · intro nm em pw ty hn he hp ht hf
    have h201 : register salt data db =
        (⟨201, Body.obj [("id", Jv.i (freshId (db.users.map User.id))),
                         ("name", nm), ("email", em), ("type", ty)]⟩,
         { db with users := db.users ++
             [⟨freshId (db.users.map User.id), nm, em,
               generate_password_hash salt pw, ty⟩] }) := by
      simp [register, hasKey, lookup_isEmpty_false he, hn, he, hp, ht, hf]
    refine ⟨h201, ?_⟩
    rw [h201]
    have hind : List.find? (fun v => v.email == em)
        (db.users ++ [(⟨freshId (db.users.map User.id), nm, em,
            generate_password_hash salt pw, ty⟩ : User)]) =
        some (⟨freshId (db.users.map User.id), nm, em,
            generate_password_hash salt pw, ty⟩ : User) :=
      find?_append_singleton hf (by simp)
    simp [register, hasKey, lookup_isEmpty_false he, hn, he, hp, ht, hind]

/-- Witness for C2: from the empty store, a first registration answers
201 and stores the salted hash, the identical second registration answers
409, and a registration with an empty body answers 400. -/
theorem C2_register_witness :
    register "s1" regData dbEmpty =
      (⟨201, Body.obj [("id", Jv.i 1), ("name", Jv.s "Teacher 1"),
                       ("email", Jv.s "teacher1@test.com"), ("type", Jv.s "teacher")]⟩,
       { dbEmpty with users := [⟨1, Jv.s "Teacher 1", Jv.s "teacher1@test.com",
           generate_password_hash "s1" (Jv.s "securepassword"), Jv.s "teacher"⟩] }) ∧
    (register "s2" regData (register "s1" regData dbEmpty).2).1 =
      ⟨409, Body.obj [("message", Jv.s "Email already used")]⟩ ∧
    (register "s1" [] dbEmpty).1.status = 400 := by
  refine ⟨((C2_register "s1" "s2" regData dbEmpty).2.2 _ _ _ _ rfl rfl rfl rfl rfl).1,
          ((C2_register "s1" "s2" regData dbEmpty).2.2 _ _ _ _ rfl rfl rfl rfl rfl).2,
          ((C2_register "s1" "s2" [] dbEmpty).1 rfl).1⟩

/-- C3 counterexample: course 5 is owned by teacher 1, yet the single
course GET route, which carries no jwt_required and consults no token,
returns the course's data with status 200 both to a requester with no
token and to teacher 99, who does not own it. -/
theorem C3_counterexample :
    get_course_route none dbOwned 5 =
      ⟨200, Body.obj [("id", Jv.i 5), ("title", Jv.s "Math 101"),
                      ("description", Jv.s "Basic Math")]⟩ ∧
    get_course_route (some 99) dbOwned 5 =
      ⟨200, Body.obj [("id", Jv.i 5), ("title", Jv.s "Math 101"),
                      ("description", Jv.s "Basic Math")]⟩ := by
  exact ⟨rfl, rfl⟩

/-- C3 amended: the course list GET is owner-scoped: every entry it
returns is the rendering of a course row whose teacher_id equals the
token identity.  The single-course GET is not owner-scoped at all: it
consults no token, so its response to any requester, authenticated or
not, is the response to an unauthenticated one, and it returns any
existing course's data. -/
theorem C3_read_scoping (db : DB) (tid course_id : Nat) (tok : Option Nat) :
    (∃ l, list_courses tid db = ⟨200, Body.arr l⟩ ∧
      ∀ e ∈ l, ∃ c, c ∈ db.courses ∧ c.teacher_id = tid ∧
        e = [("id", Jv.i c.id), ("title", c.title), ("description", c.description)]) ∧
    get_course_route tok db course_id = get_course_route none db course_id := by
  refine ⟨⟨_, rfl, ?_⟩, rfl⟩
  intro e he
  obtain ⟨c, hcmem, rfl⟩ := List.mem_map.mp he
  obtain ⟨hmem, hteach⟩ := List.mem_filter.mp hcmem
  exact ⟨c, hmem, by simpa using hteach, rfl⟩

/-- Witness for C3's amended theorem at a concrete store and token. -/
theorem C3_read_scoping_witness :
    (∃ l, list_courses 1 dbOwned = ⟨200, Body.arr l⟩ ∧
      ∀ e ∈ l, ∃ c, c ∈ dbOwned.courses ∧ c.teacher_id = 1 ∧
        e = [("id", Jv.i c.id), ("title", c.title), ("description", c.description)]) ∧
    get_course_route (some 99) dbOwned 5 = get_course_route none dbOwned 5 :=
  C3_read_scoping dbOwned 1 5 (some 99)

/-- C4 counterexample: POST /courses with no title, POST
/courses/5/assignments with a name but no due_date, and POST /login with
no email each produce the 500 server-error response, not a 400. -/
theorem C4_counterexample :
    (create_course 1 [] dbEmpty).1 = serverError ∧
    (add_assignment_to_course 1 5 [("name", Jv.s "A1")] dbEmpty).1 = serverError ∧
    login [] dbEmpty = serverError ∧ serverError.status = 500 := by
  exact ⟨rfl, rfl, rfl, rfl⟩

/-- C4 amended: only /register answers 400 on a missing field.  The
routes that subscript the body directly answer the unhandled-error 500:
POST /courses without title, POST /courses/(c)/assignments without
due_date, or with a due_date but without name, POST /login without email,
and POST /login with a registered email but without password. -/
theorem C4_missing_field_statuses (db : DB) (tid cid : Nat) (salt : String)
    (data : ReqBody) :
    (data.lookup "title" = none → create_course tid data db = (serverError, db)) ∧
    (data.lookup "due_date" = none →
      add_assignment_to_course tid cid data db = (serverError, db)) ∧
    (∀ dd d, data.lookup "due_date" = some (Jv.s dd) → strptimeZ dd = some d →
      data.lookup "name" = none →
      add_assignment_to_course tid cid data db = (serverError, db)) ∧
    (data.lookup "email" = none → login data db = serverError) ∧
    (∀ em u, data.lookup "email" = some em →
      db.users.find? (fun v => v.email == em) = some u →
      data.lookup "password" = none → login data db = serverError) ∧
    ((hasKey data "name" && hasKey data "email" &&
      hasKey data "password" && hasKey data "type") = false →
      (register salt data db).1.status = 400) := by
  refine ⟨?_, ?_, ?_, ?_, ?_, ?_⟩
  · intro h
    simp [create_course, h]
  · intro h
    simp [add_assignment_to_course, h]
  · intro dd d hdd hp hn
    simp [add_assignment_to_course, hdd, hp, hn]
  · intro h
    simp [login, h]
  · intro em u he hu hp
    simp [login, he, hu, hp]
  · intro h
    simp [register, h]

/-- Witness for C4's amended theorem: concrete requests hitting each
branch, including the login 500 on a registered email with no password. -/
theorem C4_missing_field_statuses_witness :
    create_course 1 [] dbEmpty = (serverError, dbEmpty) ∧
    add_assignment_to_course 1 5 [("name", Jv.s "A1")] dbEmpty =
      (serverError, dbEmpty) ∧
    login [("email", Jv.s "teacher1@test.com")] (register "s1" regData dbEmpty).2 =
      serverError ∧
    (register "s1" [] dbEmpty).1.status = 400 := by
  refine ⟨(C4_missing_field_statuses dbEmpty 1 5 "s1" []).1 rfl,
          (C4_missing_field_statuses dbEmpty 1 5 "s1" [("name", Jv.s "A1")]).2.1 rfl,
          (C4_missing_field_statuses (register "s1" regData dbEmpty).2 1 5 "s1"
            [("email", Jv.s "teacher1@test.com")]).2.2.2.2.1
            (Jv.s "teacher1@test.com") _ rfl rfl rfl,
          (C4_missing_field_statuses dbEmpty 1 5 "s1" []).2.2.2.2.2 rfl⟩

/-- A due date for the concrete stores. -/
def dtExample : PyDateTime := ⟨2024, 5, 31, 23, 59, 59⟩

/-- Course 1 owned by teacher 1 and course 2 owned by teacher 2;
assignment 10 belongs to course 2; student 7 has a submission for
assignment 10 with marks and feedback already stored. -/
def dbCross : DB :=
  ⟨[], [⟨1, Jv.s "Math 101", Jv.null, 1⟩, ⟨2, Jv.s "Sci 101", Jv.null, 2⟩],
   [⟨10, Jv.s "A1", dtExample, 2, Jv.null⟩], [],
   [⟨1, 7, 10, Jv.i 90, Jv.s "old"⟩]⟩

/-- Teacher-typed user 1 owning course 5 and already enrolled in it. -/
def dbEnroll : DB :=
  ⟨[⟨1, Jv.s "T", Jv.s "t@test.com", ⟨"s", Jv.s "p"⟩, Jv.s "teacher"⟩],
   [⟨5, Jv.s "Bio 101", Jv.null, 1⟩], [], [⟨1, 5, 1⟩], []⟩

/-- A marking body. -/
def markData : ReqBody := [("marks", Jv.i 95), ("feedback", Jv.s "Great job!")]

/-- A marking body with an out-of-range mark. -/
def markNeg : ReqBody := [("marks", Jv.i (-100)), ("feedback", Jv.s "impossible")]

/-- A well-formed assignment body. -/
def assignData : ReqBody :=
  [("name", Jv.s "Assignment 1"), ("due_date", Jv.s "2024-05-31T23:59:59Z")]

/-- Successful marking, in full: the response is the constant 200 and the
matching submission row is rewritten to carry jget of marks and feedback,
the rewritten row remaining the row the (assignment id, student id)
lookup returns. -/
theorem mark_submission_updates (db : DB) (tid cid aid sid : Nat)
    (data : ReqBody) (c : Course) (s0 : AssignmentSubmission)
    (hc : findOwnedCourse db cid tid = some c)
    (hs : findSubmission db aid sid = some s0) :
    mark_submission tid cid aid sid data db =
      (⟨200, Body.obj [("message", Jv.s "Marks and feedback updated successfully")]⟩,
       { db with submissions := (updateFirst
           (fun s => s.assignment_id == aid && s.student_id == sid)
           (fun s => { s with marks := jget data "marks",
                              feedback := jget data "feedback" })
           db.submissions) }) ∧
    findSubmission (mark_submission tid cid aid sid data db).2 aid sid =
      some { s0 with marks := jget data "marks",
                     feedback := jget data "feedback" } := by
  have hs' : List.find? (fun s : AssignmentSubmission =>
      s.assignment_id == aid && s.student_id == sid) db.submissions = some s0 := hs
  have hpres : ((fun s : AssignmentSubmission =>
      s.assignment_id == aid && s.student_id == sid)
      { s0 with marks := jget data "marks",
                feedback := jget data "feedback" }) = true := by
    have hp := List.find?_some hs'
    simpa using hp
  have hupd := @find?_updateFirst AssignmentSubmission
    (fun s => s.assignment_id == aid && s.student_id == sid)
    (fun s => { s with marks := jget data "marks",
                       feedback := jget data "feedback" })
    db.submissions s0 hs' hpres
  constructor
  · simp [mark_submission, hc, hs]
  · simp [mark_submission, hc, findSubmission, hs', hupd]

/-- C5: when the owning teacher marks an existing submission with marks m
and feedback f, the handler answers 200, the stored row's marks and
feedback become exactly m and f, and the read of that submission yields m
and f verbatim. -/
theorem C5_mark_then_read (db : DB) (tid cid aid sid : Nat) (data : ReqBody)
    (m f : Jv) (c : Course) (s0 : AssignmentSubmission)
    (hc : findOwnedCourse db cid tid = some c)
    (hs : findSubmission db aid sid = some s0)
    (hm : data.lookup "marks" = some m)
    (hf : data.lookup "feedback" = some f) :
    (mark_submission tid cid aid sid data db).1.status = 200 ∧
    findSubmission (mark_submission tid cid aid sid data db).2 aid sid =
      some { s0 with marks := m, feedback := f } ∧
    read_submission (mark_submission tid cid aid sid data db).2 aid sid =
      some (m, f) := by
  obtain ⟨h1, h2⟩ := mark_submission_updates db tid cid aid sid data c s0 hc hs
  have hjm : jget data "marks" = m := by simp [jget, hm]
  have hjf : jget data "feedback" = f := by simp [jget, hf]
  refine ⟨by rw [h1], ?_, ?_⟩
  · rw [h2, hjm, hjf]
  · simp [read_submission, h2, hjm, hjf]

/-- Witness for C5: teacher 1 marks submission (10, 7) in course 1 with
marks 95 and feedback, and the read returns them verbatim. -/
theorem C5_mark_then_read_witness :
    (mark_submission 1 1 10 7 markData dbCross).1.status = 200 ∧
    findSubmission (mark_submission 1 1 10 7 markData dbCross).2 10 7 =
      some ⟨1, 7, 10, Jv.i 95, Jv.s "Great job!"⟩ ∧
    read_submission (mark_submission 1 1 10 7 markData dbCross).2 10 7 =
      some (Jv.i 95, Jv.s "Great job!") :=
  C5_mark_then_read dbCross 1 1 10 7 markData (Jv.i 95) (Jv.s "Great job!")
    _ _ rfl rfl rfl rfl

/-- C6: marking looks the submission up by (assignment id, student id)
only.  Whenever the requester owns the course named in the URL and a
submission row matches the pair, marking succeeds and rewrites that row,
with no reference to the assignments table at all — hence also when the
assignment belongs to a different course, including one owned by a
different teacher — and the marks value is stored exactly as sent, with
no range validation. -/
theorem C6_mark_by_pair_only (db : DB) (tid cid aid sid : Nat) (data : ReqBody)
    (c : Course) (s0 : AssignmentSubmission)
    (hc : findOwnedCourse db cid tid = some c)
    (hs : findSubmission db aid sid = some s0) :
    mark_submission tid cid aid sid data db =
      (⟨200, Body.obj [("message", Jv.s "Marks and feedback updated successfully")]⟩,
       { db with submissions := (updateFirst
           (fun s => s.assignment_id == aid && s.student_id == sid)
           (fun s => { s with marks := jget data "marks",
                              feedback := jget data "feedback" })
           db.submissions) }) ∧
    findSubmission (mark_submission tid cid aid sid data db).2 aid sid =
      some { s0 with marks := jget data "marks",
                     feedback := jget data "feedback" } ∧
    (∀ la : List Assignment,
      mark_submission tid cid aid sid data { db with assignments := la } =
        ((mark_submission tid cid aid sid data db).1,
         { (mark_submission tid cid aid sid data db).2 with assignments := la })) := by
  obtain ⟨h1, h2⟩ := mark_submission_updates db tid cid aid sid data c s0 hc hs
  refine ⟨h1, h2, ?_⟩
  intro la
  have hc2 : findOwnedCourse { db with assignments := la } cid tid = some c := hc
  have hs2 : findSubmission { db with assignments := la } aid sid = some s0 := hs
  obtain ⟨h1a, _⟩ := mark_submission_updates { db with assignments := la }
    tid cid aid sid data c s0 hc2 hs2
  rw [h1a, h1]

/-- Witness for C6: assignment 10 belongs to course 2, owned by teacher
2, yet teacher 1 marking through the URL of their own course 1 succeeds
and stores the unvalidated mark -100. -/
theorem C6_mark_by_pair_only_witness :
    (mark_submission 1 1 10 7 markNeg dbCross).1.status = 200 ∧
    findSubmission (mark_submission 1 1 10 7 markNeg dbCross).2 10 7 =
      some ⟨1, 7, 10, Jv.i (-100), Jv.s "impossible"⟩ := by
  obtain ⟨h1, h2, _⟩ := C6_mark_by_pair_only dbCross 1 1 10 7 markNeg _ _ rfl rfl
  exact ⟨by rw [h1], h2⟩

/-- C7: for every token identity and course id, a well-formed assignment
POST creates the row with course_id taken from the URL and answers 201;
the handler never consults the courses table or the identity, so the
response is the same on a store where the course is absent or owned by
anyone. -/
theorem C7_assignment_ignores_courses (db : DB) (tid cid : Nat) (data : ReqBody)
    (nm : Jv) (dd : String) (d : PyDateTime)
    (hdd : data.lookup "due_date" = some (Jv.s dd))
    (hparse : strptimeZ dd = some d)
    (hnm : data.lookup "name" = some nm) :
    add_assignment_to_course tid cid data db =
      (⟨201, Body.obj [("id", Jv.i (freshId (db.assignments.map Assignment.id))),
                       ("name", nm)]⟩,
       { db with assignments := db.assignments ++
           [⟨freshId (db.assignments.map Assignment.id), nm, d, cid,
             jget data "description"⟩] }) ∧
    (∀ (cs : List Course) (tid2 : Nat),
      (add_assignment_to_course tid2 cid data { db with courses := cs }).1 =
        (add_assignment_to_course tid cid data db).1) := by
  constructor
  · simp [add_assignment_to_course, hdd, hparse, hnm]
  · intro cs tid2
    simp [add_assignment_to_course, hdd, hparse, hnm]

/-- Witness for C7: on the empty store, where course 42 does not exist
and so belongs to nobody, the assignment POST still answers 201 and
inserts the row with course_id 42. -/
theorem C7_assignment_ignores_courses_witness :
    add_assignment_to_course 1 42 assignData dbEmpty =
      (⟨201, Body.obj [("id", Jv.i 1), ("name", Jv.s "Assignment 1")]⟩,
       { dbEmpty with assignments :=
           [⟨1, Jv.s "Assignment 1", dtExample, 42, Jv.null⟩] }) :=
  (C7_assignment_ignores_courses dbEmpty 1 42 assignData (Jv.s "Assignment 1")
    "2024-05-31T23:59:59Z" dtExample rfl rfl rfl).1

/-- C8: the enroll POST answers 200 and appends an enrollment row whose
course id is the URL's and whose student id is the token identity — for
any identity, with no check on the user's type and none against an
existing identical enrollment — and the owner's subsequent student list
for that course contains that student id. -/
theorem C8_enroll_then_list (db : DB) (tid cid towner : Nat) (c : Course)
    (hc : findOwnedCourse db cid towner = some c) :
    (enroll_student tid cid db).1.status = 200 ∧
    (enroll_student tid cid db).2.enrollments =
      db.enrollments ++ [⟨freshId (db.enrollments.map Enrollment.id), cid, tid⟩] ∧
    (∃ l, list_course_students towner cid (enroll_student tid cid db).2 =
        ⟨200, Body.arr l⟩ ∧ [("student_id", Jv.i tid)] ∈ l) := by
  have hc2 : findOwnedCourse (enroll_student tid cid db).2 cid towner = some c := hc
  refine ⟨rfl, rfl, ?_⟩
  refine ⟨((enroll_student tid cid db).2.enrollments.filter
      (fun e => e.course_id == cid)).map
      (fun e => [("student_id", Jv.i e.student_id)]), ?_, ?_⟩
  · simp [list_course_students, hc2]
  · apply List.mem_map.mpr
    refine ⟨⟨freshId (db.enrollments.map Enrollment.id), cid, tid⟩, ?_, rfl⟩
    apply List.mem_filter.mpr
    refine ⟨?_, by simp⟩
    exact List.mem_append_right _ (List.mem_singleton.mpr rfl)

/-- Witness for C8: teacher-typed user 1, already enrolled in their own
course 5, enrolls again: a second identical enrollment row appears and
the student list contains student_id 1. -/
theorem C8_enroll_then_list_witness :
    (enroll_student 1 5 dbEnroll).1.status = 200 ∧
    (enroll_student 1 5 dbEnroll).2.enrollments = [⟨1, 5, 1⟩, ⟨2, 5, 1⟩] ∧
    (∃ l, list_course_students 1 5 (enroll_student 1 5 dbEnroll).2 =
        ⟨200, Body.arr l⟩ ∧ [("student_id", Jv.i 1)] ∈ l) :=
  C8_enroll_then_list dbEnroll 1 5 1 _ rfl

/-- C9: for the owning teacher's material POST, a request with no file
part is answered 400, as is an empty filename; otherwise the file is
written to UPLOAD_FOLDER joined with the sanitized filename, a path that
does not mention the course, so any two owned courses given the same
filename write to the same path.  The sanitize argument ranges over every
possible sanitizer, in particular werkzeug's. -/
theorem C9_upload_shared_folder (sanitize : String → String) (db : DB)
    (tid cid : Nat) (c : Course) (hc : findOwnedCourse db cid tid = some c) :
    upload_material sanitize tid cid none db =
      (⟨400, Body.obj [("message", Jv.s "No file part found in the request")]⟩, none) ∧
    upload_material sanitize tid cid (some ⟨""⟩) db =
      (⟨400, Body.obj [("message", Jv.s "No file selected")]⟩, none) ∧
    (∀ fn : String, fn ≠ "" →
      upload_material sanitize tid cid (some ⟨fn⟩) db =
        (⟨201, Body.obj [("message", Jv.s "File uploaded successfully")]⟩,
         some (os_path_join UPLOAD_FOLDER (sanitize fn)))) ∧
    (∀ (db2 : DB) (tid2 cid2 : Nat) (c2 : Course) (fn : String),
      findOwnedCourse db2 cid2 tid2 = some c2 → fn ≠ "" →
      (upload_material sanitize tid2 cid2 (some ⟨fn⟩) db2).2 =
        (upload_material sanitize tid cid (some ⟨fn⟩) db).2) := by
  refine ⟨by simp [upload_material, hc], by simp [upload_material, hc], ?_, ?_⟩
  · intro fn hfn
    simp [upload_material, hc, hfn]
  · intro db2 tid2 cid2 c2 fn h2 hfn
    simp [upload_material, hc, h2, hfn]

/-- Witness for C9: uploads of notes.pdf to course 1 (teacher 1) and to
course 2 (teacher 2) write to the one same path, and a missing file part
is a 400. -/
theorem C9_upload_shared_folder_witness :
    (upload_material (fun v => v) 1 1 (some ⟨"notes.pdf"⟩) dbCross).2 =
      (upload_material (fun v => v) 2 2 (some ⟨"notes.pdf"⟩) dbCross).2 ∧
    (upload_material (fun v => v) 2 2 (some ⟨"notes.pdf"⟩) dbCross).2 =
      some "/path/to/upload/folder/notes.pdf" ∧
    (upload_material (fun v => v) 1 1 none dbCross).1.status = 400 := by
  obtain ⟨h400, _, h201, hind⟩ :=
    C9_upload_shared_folder (fun v => v) dbCross 2 2 _ rfl
  refine ⟨hind dbCross 1 1 ⟨1, Jv.s "Math 101", Jv.null, 1⟩ "notes.pdf" rfl
    (by decide), ?_, ?_⟩
  · rw [h201 "notes.pdf" (by decide)]
    rfl
  · obtain ⟨h400a, _, _, _⟩ :=
      C9_upload_shared_folder (fun v => v) dbCross 1 1 _ rfl
    rw [h400a]

/-- C10: a successful marking whose body omits the marks key (or the
feedback key) stores null in that field of the submission, overwriting
whatever was there, rather than leaving it unchanged. -/
theorem C10_omitted_keys_store_null (db : DB) (tid cid aid sid : Nat)
    (data : ReqBody) (c : Course) (s0 : AssignmentSubmission)
    (hc : findOwnedCourse db cid tid = some c)
    (hs : findSubmission db aid sid = some s0) :
    (mark_submission tid cid aid sid data db).1.status = 200 ∧
    (data.lookup "marks" = none →
      findSubmission (mark_submission tid cid aid sid data db).2 aid sid =
        some { s0 with marks := Jv.null, feedback := jget data "feedback" }) ∧
    (data.lookup "feedback" = none →
      findSubmission (mark_submission tid cid aid sid data db).2 aid sid =
        some { s0 with marks := jget data "marks", feedback := Jv.null }) := by
  obtain ⟨h1, h2⟩ := mark_submission_updates db tid cid aid sid data c s0 hc hs
  refine ⟨by rw [h1], ?_, ?_⟩
  · intro hm
    rw [h2]
    simp [jget, hm]
  · intro hf
    rw [h2]
    simp [jget, hf]

/-- Witness for C10: submission (10, 7) holds marks 90 and feedback
before the owner's marking request with an empty body; afterwards both
fields are null. -/
theorem C10_omitted_keys_store_null_witness :
    (mark_submission 1 1 10 7 [] dbCross).1.status = 200 ∧
    findSubmission (mark_submission 1 1 10 7 [] dbCross).2 10 7 =
      some ⟨1, 7, 10, Jv.null, Jv.null⟩ := by
  obtain ⟨h1, h2, _⟩ := C10_omitted_keys_store_null dbCross 1 1 10 7 [] _ _ rfl rfl
  exact ⟨h1, h2 rfl⟩

end ClaClo
